import Mathlib

/-!
Verification model of the vigil multi-stream video viewer.

Shallow embedding of the focus state machine, the per-stream refresh
scheduling and the detection-overlay pass of `src/main.py` and
`src/vigil/pixel_view.py`:

* `PixelView` models one stream widget: the widget visibility flag, the
  running state of its `QTimer` refresh scheduler, the `upscale` flag, the
  last pixmap written into its graphics scene, and the read position of its
  `cv.VideoCapture` source.
* `MainWindow.focus_stream` models `MainWindow.focus_stream` of
  `src/main.py` (lines 132-151).
* `PeopleDetector.detect_and_bound_people` is modelled by
  `detect_and_bound_people`: `cv.cvtColor` raising on a `None` or empty
  frame, the external HOG detector as an oracle, the `(x, y, w, h)` to
  corner-pair conversion, and the strict `weight > min_confidence` gate.
* `extract_cv2_frame_to_pixmap` models one scheduler tick, including the
  fact that the boolean returned by `video_capture.read()` is discarded.

Operations also return the list of `VEvent`s they emit (timer stops and
starts, widget hides and shows, upscale-flag writes) so that no-op and
flicker properties can be stated about a call, not just about its final
state.
-/

namespace Vigil

/-- A detection box as returned by `hog.detectMultiScale`: `(x, y, w, h)`. -/
structure HogBox where
  x : Nat
  y : Nat
  w : Nat
  h : Nat
deriving DecidableEq, Repr

/-- A rectangle actually drawn by `cv.rectangle`, as its two corners. -/
structure DrawnRect where
  x1 : Nat
  y1 : Nat
  x2 : Nat
  y2 : Nat
deriving DecidableEq, Repr

/-- The transform `boxes = [[x, y, x + w, y + h] for (x, y, w, h) in boxes]`
of `pixel_view.py` line 50. -/
def toCorners (b : HogBox) : DrawnRect :=
  ⟨b.x, b.y, b.x + b.w, b.y + b.h⟩

/-- A frame value as handed to the detection pass. `noneFrame` is the `None`
returned by a failed `video_capture.read()`; `emptyFrame` is an empty image
array; `valid g` is a decodable frame with abstract content id `g`. -/
inductive Cv2Frame where
  | noneFrame
  | emptyFrame
  | valid (g : Nat)
deriving DecidableEq, Repr

/-- The `cv2.error` raised by OpenCV primitives on bad input. -/
inductive CvError where
  | badInputFrame
deriving DecidableEq, Repr

/-- Model of `cv.cvtColor(frame, cv.COLOR_BGR2GRAY)`: raises `cv2.error`
when the input is `None` or an empty array, otherwise produces the
grayscale image (same abstract content id). -/
def cvtColor (fr : Cv2Frame) : Except CvError Nat :=
  match fr with
  | Cv2Frame.valid g => Except.ok g
  | _ => Except.error CvError.badInputFrame

/-- Model of `PeopleDetector.detect_and_bound_people` (pixel_view.py lines
28-53). The external HOG detector is the oracle `detector`, mapping the
grayscale image to its `(box, weight)` list. The function converts the
frame to grayscale (raising on `None` or empty input), runs the detector,
and draws the corner rectangle of every box whose `weight > min_confidence`
(strict comparison, line 52; the default threshold is `3/4`). The result is
the list of rectangles drawn into the frame. -/
def detect_and_bound_people (fr : Cv2Frame) (detector : Nat → List (HogBox × ℚ))
    (min_confidence : ℚ) : Except CvError (List DrawnRect) :=
  match cvtColor fr with
  | Except.error e => Except.error e
  | Except.ok gray =>
      Except.ok (((detector gray).filter fun bw => min_confidence < bw.2).map
        fun bw => toCorners bw.1)

/-- One stream widget (`PixelView` of pixel_view.py). `visible` is the Qt
widget shown/hidden state; `timerActive` is whether its `QTimer` refresh
scheduler is running; `upscale` is the `self.upscale` flag; `lastFrame` is
the pixmap last written into the graphics scene (frame content id plus the
overlay rectangles burned into it); `readPos` is the read position of its
`cv.VideoCapture` source. -/
structure PixelView where
  visible : Bool
  timerActive : Bool
  upscale : Bool
  lastFrame : Nat × List DrawnRect
  readPos : Nat
deriving DecidableEq, Repr

/-- An observable action emitted while an operation runs: timer stop or
(re)start, widget hide or show, and a write of the upscale flag, each
tagged with the stream index. -/
inductive VEvent where
  | timerStop (i : Nat)
  | timerStart (i : Nat)
  | widgetHide (i : Nat)
  | widgetShow (i : Nat)
  | setUpscale (i : Nat) (b : Bool)
deriving DecidableEq, Repr

/-- Whether an event stops or (re)starts a refresh timer. -/
def VEvent.isTimerEvent : VEvent → Bool
  | VEvent.timerStop _ => true
  | VEvent.timerStart _ => true
  | _ => false

/-- Model of `PixelView.hide` (pixel_view.py lines 158-165): the widget is
hidden, then its timer is stopped. `i` is the stream index used to tag the
emitted events. -/
def PixelView.hide (v : PixelView) (i : Nat) : PixelView × List VEvent :=
  ({ v with visible := false, timerActive := false },
   [VEvent.widgetHide i, VEvent.timerStop i])

/-- Model of `PixelView.show` (pixel_view.py lines 167-172): the widget is
shown, then its timer is started. `QTimer.start` restarts the timer when it
is already running, so a `timerStart` event is emitted unconditionally. -/
def PixelView.show (v : PixelView) (i : Nat) : PixelView × List VEvent :=
  ({ v with visible := true, timerActive := true },
   [VEvent.widgetShow i, VEvent.timerStart i])

/-- Model of `PixelView.upscale_stream` (pixel_view.py lines 174-181). -/
def PixelView.upscale_stream (v : PixelView) (b : Bool) (i : Nat) :
    PixelView × List VEvent :=
  ({ v with upscale := b }, [VEvent.setUpscale i b])

/-- Model of `PixelView.setup_continuos_streaming` (pixel_view.py lines
79-97): the timer interval in milliseconds, `period_ms = int(1000 / fps)`.
For a positive integer `fps` the Python float division followed by `int`
truncation equals natural-number division. -/
def setup_continuos_streaming (fps : Nat) : Nat :=
  1000 / fps

/-- The state of a `PixelView` right after `PixelView.__init__`
(pixel_view.py lines 66-77): `upscale` is `False`, the refresh timer has
been started by `setup_continuos_streaming`, the scene holds a blank pixmap
and no frame has been read yet — but the widget has not been shown, so it
is still hidden. -/
def PixelView.mkInit : PixelView :=
  { visible := false, timerActive := true, upscale := false,
    lastFrame := (0, []), readPos := 0 }

/-- The result of one call of `video_capture.read()`: `okFrame f` is
`(True, frame)`, `failed` is `(False, None)` — which is what OpenCV returns
both on a transient read error and at end of stream. -/
inductive CvReadResult where
  | okFrame (f : Nat)
  | failed
deriving DecidableEq, Repr

/-- Model of `PixelView.extract_cv2_frame_to_pixmap` (pixel_view.py lines
139-156), the body of one scheduler tick. The boolean returned by
`video_capture.read()` is discarded (`_, frame = ...`, line 143), so a
failed read hands `None` to `detect_and_bound_people`, whose `cv.cvtColor`
call raises; the exception escapes the timer slot and the pixmap is not
touched. On a successful read the frame with its overlay becomes the new
scene pixmap and the source position advances. The timer itself is never
stopped or started here. -/
def extract_cv2_frame_to_pixmap (v : PixelView) (r : CvReadResult)
    (detector : Nat → List (HogBox × ℚ)) : Except CvError PixelView :=
  let frame : Cv2Frame :=
    match r with
    | CvReadResult.okFrame f => Cv2Frame.valid f
    | CvReadResult.failed => Cv2Frame.noneFrame
  match detect_and_bound_people frame detector (3 / 4 : ℚ) with
  | Except.error e => Except.error e
  | Except.ok boxes =>
      match r with
      | CvReadResult.okFrame f =>
          Except.ok { v with lastFrame := (f, boxes), readPos := v.readPos + 1 }
      | CvReadResult.failed => Except.ok v

/-- The `VigilStreamFocus` enum of main.py (lines 18-27). -/
inductive VigilStreamFocus where
  | STREAM_0
  | STREAM_1
  | STREAM_2
  | STREAM_3
  | CONCURRENT
deriving DecidableEq, Repr

/-- The `IntEnum` integer value of a focus target. -/
def VigilStreamFocus.toNat : VigilStreamFocus → Nat
  | VigilStreamFocus.STREAM_0 => 0
  | VigilStreamFocus.STREAM_1 => 1
  | VigilStreamFocus.STREAM_2 => 2
  | VigilStreamFocus.STREAM_3 => 3
  | VigilStreamFocus.CONCURRENT => 4

/-- The single-stream focus target for a stream index. -/
def VigilStreamFocus.ofIdx : Fin 4 → VigilStreamFocus
  | 0 => VigilStreamFocus.STREAM_0
  | 1 => VigilStreamFocus.STREAM_1
  | 2 => VigilStreamFocus.STREAM_2
  | 3 => VigilStreamFocus.STREAM_3

/-- The main window: the four `PixelView` widgets of `self.pixel_widgets`
(main.py lines 94-103). -/
structure MainWindow where
  w0 : PixelView
  w1 : PixelView
  w2 : PixelView
  w3 : PixelView
deriving DecidableEq, Repr

/-- `self.pixel_widgets[i]` (indices 3 and above clamp to the last widget;
only 0..3 occur). -/
def MainWindow.getWidget (m : MainWindow) (i : Nat) : PixelView :=
  match i with
  | 0 => m.w0
  | 1 => m.w1
  | 2 => m.w2
  | _ => m.w3

/-- Replace widget `i` of the window. -/
def MainWindow.setWidget (m : MainWindow) (i : Nat) (v : PixelView) : MainWindow :=
  match i with
  | 0 => { m with w0 := v }
  | 1 => { m with w1 := v }
  | 2 => { m with w2 := v }
  | _ => { m with w3 := v }

/-- The loop body of the `CONCURRENT` branch of `focus_stream`:
`pixel_widget.upscale_stream(False)` then `pixel_widget.show()`. -/
def concurrentBody (v : PixelView) (i : Nat) : PixelView × List VEvent :=
  let u := v.upscale_stream false i
  let s := u.1.show i
  (s.1, u.2 ++ s.2)

/-- Model of `MainWindow.focus_stream` (main.py lines 132-151). On
`CONCURRENT`, every widget gets `upscale_stream(False)` and `show()` in
order. On a single-stream target, every widget is hidden in order, then the
target widget gets `upscale_stream(True)` and `show()`. The other widgets'
`upscale` flags are not written in the single-stream branch, and there is
no check against the current focus. -/
def MainWindow.focus_stream (m : MainWindow) (stream : VigilStreamFocus) :
    MainWindow × List VEvent :=
  match stream with
  | VigilStreamFocus.CONCURRENT =>
      let a := concurrentBody m.w0 0
      let b := concurrentBody m.w1 1
      let c := concurrentBody m.w2 2
      let d := concurrentBody m.w3 3
      (⟨a.1, b.1, c.1, d.1⟩, a.2 ++ b.2 ++ c.2 ++ d.2)
  | t =>
      let h0 := m.w0.hide 0
      let h1 := m.w1.hide 1
      let h2 := m.w2.hide 2
      let h3 := m.w3.hide 3
      let m1 : MainWindow := ⟨h0.1, h1.1, h2.1, h3.1⟩
      let i := t.toNat
      let u := (m1.getWidget i).upscale_stream true i
      let m2 := m1.setWidget i u.1
      let s := (m2.getWidget i).show i
      let m3 := m2.setWidget i s.1
      (m3, h0.2 ++ h1.2 ++ h2.2 ++ h3.2 ++ u.2 ++ s.2)

/-- The startup state of the application: the four widgets constructed
(timers running, `upscale` false, blank scenes) and then shown with the
main window, so all four are visible and ticking and none is upscaled. -/
def startupState : MainWindow :=
  ⟨{ PixelView.mkInit with visible := true },
   { PixelView.mkInit with visible := true },
   { PixelView.mkInit with visible := true },
   { PixelView.mkInit with visible := true }⟩

/-- The indices of the active (ticking) streams, in increasing order. -/
def MainWindow.activeIdx (m : MainWindow) : List Nat :=
  (List.range 4).filter fun i => (m.getWidget i).timerActive

/-- The indices of the active streams whose `upscale` flag is set. -/
def MainWindow.upscaledActiveIdx (m : MainWindow) : List Nat :=
  (List.range 4).filter fun i =>
    (m.getWidget i).timerActive && (m.getWidget i).upscale

/-- The indices of all streams whose `upscale` flag is set, visible or not. -/
def MainWindow.upscaledIdx (m : MainWindow) : List Nat :=
  (List.range 4).filter fun i => (m.getWidget i).upscale

/-- Claim C1, counterexample: starting from the startup state, the call
sequence `focus_stream(STREAM_0); focus_stream(STREAM_1)` leaves both
stream 0 and stream 1 with `upscale = true` — the single-stream branch of
`focus_stream` never clears the previously focused widget's flag — so
after the second call two streams are upscaled, refuting "at most one
stream has upscaled = true". -/
theorem c1_counterexample :
    ((startupState.focus_stream VigilStreamFocus.STREAM_0).1.focus_stream
        VigilStreamFocus.STREAM_1).1.upscaledIdx = [0, 1] ∧
    ¬ (((startupState.focus_stream VigilStreamFocus.STREAM_0).1.focus_stream
        VigilStreamFocus.STREAM_1).1.upscaledIdx.length ≤ 1) := by
  decide

/-- Claim C1, amended: after any completed `focus_stream(t)` call, from any
prior state, the set of active (ticking) streams is exactly `{0..3}` when
`t` is `CONCURRENT` and exactly `{t}` otherwise; among the active streams,
`upscale` is set exactly on the target iff `t` is a single-stream target —
but hidden, inactive streams may retain a stale `upscale = true` from an
earlier single-stream focus. -/
theorem c1_active_set_invariant (m : MainWindow) (t : VigilStreamFocus) :
    (m.focus_stream t).1.activeIdx
      = (if t = VigilStreamFocus.CONCURRENT then [0, 1, 2, 3] else [t.toNat]) ∧
    (m.focus_stream t).1.upscaledActiveIdx
      = (if t = VigilStreamFocus.CONCURRENT then [] else [t.toNat]) := by
  cases t <;> exact ⟨rfl, rfl⟩

/-- Claim C2, counterexample: from the startup state, after a first
`focus_stream(STREAM_0)`, a second `focus_stream(STREAM_0)` is not a
no-op: it stops all four refresh timers, restarts stream 0's timer, and
hides and re-shows widget 0 — there is no check against the current focus
in the code. -/
theorem c2_counterexample :
    (((startupState.focus_stream VigilStreamFocus.STREAM_0).1.focus_stream
        VigilStreamFocus.STREAM_0).2.filter VEvent.isTimerEvent
      = [VEvent.timerStop 0, VEvent.timerStop 1, VEvent.timerStop 2,
         VEvent.timerStop 3, VEvent.timerStart 0]) ∧
    VEvent.widgetHide 0 ∈ ((startupState.focus_stream
        VigilStreamFocus.STREAM_0).1.focus_stream VigilStreamFocus.STREAM_0).2 ∧
    VEvent.widgetShow 0 ∈ ((startupState.focus_stream
        VigilStreamFocus.STREAM_0).1.focus_stream VigilStreamFocus.STREAM_0).2 := by
  decide

/-- Claim C2, amended: `focus_stream` is idempotent in its final state — a
second call with the same target leaves the window state exactly where the
first call left it — but the second call is not a no-op: it re-issues the
hide/stop and show/start operations, stopping and restarting timers and
transiently hiding the focused widget. -/
theorem c2_idempotent_state (m : MainWindow) (t : VigilStreamFocus) :
    ((m.focus_stream t).1.focus_stream t).1 = (m.focus_stream t).1 := by
  cases t <;> rfl

/-- Claim C3, counterexample: a detection whose weight equals the default
threshold `3/4` is discarded, because line 52 of pixel_view.py uses the
strict comparison `weight > min_confidence`; the claim requires every box
with weight greater than or equal to the threshold to be drawn. -/
theorem c3_counterexample :
    ((3 : ℚ) / 4 ≤ (3 : ℚ) / 4) ∧
    detect_and_bound_people (Cv2Frame.valid 0)
        (fun _ => [(HogBox.mk 0 0 10 10, (3 : ℚ) / 4)]) ((3 : ℚ) / 4)
      = Except.ok [] := by
  constructor
  · norm_num
  · rw [detect_and_bound_people]
    simp [cvtColor]

/-- Claim C3, amended: on a valid frame, the detection overlay pass draws a
rectangle for exactly those detector boxes whose weight is strictly greater
than the confidence threshold (boxes at or below the threshold are
discarded), each drawn as its corner pair `(x, y, x + w, y + h)`. -/
theorem c3_strict_confidence_gate (detector : Nat → List (HogBox × ℚ)) (thr : ℚ)
    (g : Nat) (drawn : List DrawnRect) (r : DrawnRect)
    (h : detect_and_bound_people (Cv2Frame.valid g) detector thr = Except.ok drawn) :
    r ∈ drawn ↔ ∃ bw, bw ∈ detector g ∧ thr < bw.2 ∧ r = toCorners bw.1 := by
  have hd : drawn
      = ((detector g).filter fun bw => thr < bw.2).map fun bw => toCorners bw.1 := by
    have h2 := h
    rw [detect_and_bound_people] at h2
    simpa [cvtColor] using h2.symm
  subst hd
  simp only [List.mem_map, List.mem_filter, decide_eq_true_eq]
  constructor
  · rintro ⟨bw, ⟨hm, hlt⟩, he⟩
    exact ⟨bw, hm, hlt, he.symm⟩
  · rintro ⟨bw, hm, hlt, he⟩
    exact ⟨bw, ⟨hm, hlt⟩, he.symm⟩

/-- Claim C3, witness for the amended theorem at a concrete input: with
threshold `0` and one detection of weight `1`, the box is drawn. -/
theorem c3_strict_confidence_gate_witness :
    DrawnRect.mk 0 0 10 10 ∈ [DrawnRect.mk 0 0 10 10] ↔
      ∃ bw, bw ∈ [(HogBox.mk 0 0 10 10, (1 : ℚ))] ∧ (0 : ℚ) < bw.2 ∧
        DrawnRect.mk 0 0 10 10 = toCorners bw.1 :=
  c3_strict_confidence_gate (fun _ => [(HogBox.mk 0 0 10 10, (1 : ℚ))]) 0 0
    [DrawnRect.mk 0 0 10 10] (DrawnRect.mk 0 0 10 10) rfl

/-- Claim C4: the code violates the claim. A tick in which
`video_capture.read()` fails discards the returned success flag and hands
the `None` frame to the detection pass, whose `cv.cvtColor` call raises
`cv2.error`; the exception escapes the timer slot instead of the tick being
skipped, so the scheduler does not cleanly continue (under PyQt5's default
unhandled-exception behaviour the application aborts). -/
theorem c4_read_failure_tick_raises (v : PixelView)
    (detector : Nat → List (HogBox × ℚ)) :
    extract_cv2_frame_to_pixmap v CvReadResult.failed detector
      = Except.error CvError.badInputFrame :=
  rfl

/-- Claim C5: the code violates the claim. No tick outcome ever calls
`timer.stop()`: at end of stream `read()` returns `(False, None)` exactly
as on a read error, the tick raises inside the detection pass instead of
stopping the scheduler, and every successful tick leaves the timer state
unchanged — there is no end-of-stream handling at all. -/
theorem c5_eos_never_stops_timer (v : PixelView)
    (detector : Nat → List (HogBox × ℚ)) :
    (extract_cv2_frame_to_pixmap v CvReadResult.failed detector
        = Except.error CvError.badInputFrame) ∧
    (∀ f : Nat, (extract_cv2_frame_to_pixmap v (CvReadResult.okFrame f)
        detector).map PixelView.timerActive = Except.ok v.timerActive) :=
  ⟨rfl, fun _ => rfl⟩

/-- Claim C6: the code violates the claim. On a `None` frame (failed read)
or an empty frame, `detect_and_bound_people` raises inside `cv.cvtColor`
rather than degrading to drawing no boxes. -/
theorem c6_detection_raises_on_malformed (detector : Nat → List (HogBox × ℚ))
    (thr : ℚ) :
    (detect_and_bound_people Cv2Frame.noneFrame detector thr
        = Except.error CvError.badInputFrame) ∧
    (detect_and_bound_people Cv2Frame.emptyFrame detector thr
        = Except.error CvError.badInputFrame) :=
  ⟨rfl, rfl⟩

/-- Claim C7: from the startup state (all four streams visible, ticking and
not upscaled), `focus_stream(STREAM_i)` followed by
`focus_stream(CONCURRENT)` restores the startup state exactly, for every
stream index `i` — a round trip. -/
theorem c7_focus_roundtrip (i : Fin 4) :
    ((startupState.focus_stream (VigilStreamFocus.ofIdx i)).1.focus_stream
        VigilStreamFocus.CONCURRENT).1 = startupState := by
  fin_cases i <;> rfl

/-- Claim C8, counterexample: for the default `target_fps = 30` the code
configures a period of `int(1000 / 30) = 33` ms, which is not equal to
`1000 / 30` ms — the division is truncated, so the claimed exact period
does not hold for every positive fps. -/
theorem c8_counterexample :
    setup_continuos_streaming 30 = 33 ∧
    ((setup_continuos_streaming 30 : ℚ) ≠ 1000 / 30) := by
  constructor
  · rfl
  · norm_num [setup_continuos_streaming]

/-- Claim C8, amended: for every positive `target_fps`, the scheduler
period is `⌊1000 / target_fps⌋` milliseconds (the truncation of
`int(1000 / fps)`), which equals `1000 / target_fps` exactly whenever
`target_fps` divides 1000. -/
theorem c8_period_is_floor (fps : Nat) (h : 0 < fps) :
    setup_continuos_streaming fps = ⌊(1000 : ℚ) / (fps : ℚ)⌋₊ ∧
    ((fps ∣ 1000) → (setup_continuos_streaming fps : ℚ) = 1000 / (fps : ℚ)) := by
  constructor
  · have h1 : ⌊((1000 : ℕ) : ℚ) / (fps : ℚ)⌋₊ = 1000 / fps :=
      Nat.floor_div_eq_div 1000 fps
    rw [setup_continuos_streaming, ← h1]
    norm_num
  · intro hd
    rw [setup_continuos_streaming]
    have hz : ((fps : ℚ)) ≠ 0 := Nat.cast_ne_zero.mpr h.ne'
    have h2 : (((1000 / fps : ℕ)) : ℚ) = ((1000 : ℕ) : ℚ) / (fps : ℚ) :=
      Nat.cast_div hd hz
    rw [h2]
    norm_num

/-- Claim C8, witness for the amended theorem at the default fps of 30. -/
theorem c8_period_is_floor_witness :
    0 < 30 ∧
    (setup_continuos_streaming 30 = ⌊(1000 : ℚ) / ((30 : Nat) : ℚ)⌋₊ ∧
      (((30 : Nat) ∣ 1000) →
        (setup_continuos_streaming 30 : ℚ) = 1000 / ((30 : Nat) : ℚ))) :=
  ⟨by decide, c8_period_is_floor 30 (by decide)⟩

/-- Claim C9, counterexample: right after construction the invariant
"timer ticking iff widget shown" fails — `PixelView.__init__` starts the
refresh timer via `setup_continuos_streaming` while the widget has not yet
been shown, so the timer ticks on a hidden widget. -/
theorem c9_counterexample :
    PixelView.mkInit.timerActive = true ∧ PixelView.mkInit.visible = false ∧
    ¬ (PixelView.mkInit.timerActive = PixelView.mkInit.visible) := by
  decide

/-- Claim C9, amended: hiding a stream always stops its timer and showing
it always starts its timer, and after any `focus_stream` call every
stream's timer is ticking iff its widget is shown; the invariant does not
hold at construction, where the timer is already ticking on the not yet
shown widget. -/
theorem c9_ticking_iff_shown (v : PixelView) (i : Nat) (m : MainWindow)
    (t : VigilStreamFocus) :
    ((v.hide i).1.timerActive = (v.hide i).1.visible) ∧
    ((v.show i).1.timerActive = (v.show i).1.visible) ∧
    (∀ j : Nat, ((m.focus_stream t).1.getWidget j).timerActive
        = ((m.focus_stream t).1.getWidget j).visible) := by
  refine ⟨rfl, rfl, fun j => ?_⟩
  cases t <;> rcases j with _ | _ | _ | j <;> rfl

/-- Claim C10: `focus_stream` only touches visibility, timer running-state
and the upscale flag — it leaves every stream's last rendered pixmap and
source read position unchanged, for every target and prior state; and
`show` also leaves the pixmap unchanged, so a stream hidden by a focus
change redisplays its previously rendered frame when later shown. -/
theorem c10_focus_frame_condition (m : MainWindow) (t : VigilStreamFocus)
    (j : Nat) (v : PixelView) (i : Nat) :
    (((m.focus_stream t).1.getWidget j).lastFrame = (m.getWidget j).lastFrame) ∧
    (((m.focus_stream t).1.getWidget j).readPos = (m.getWidget j).readPos) ∧
    ((v.show i).1.lastFrame = v.lastFrame) := by
  refine ⟨?_, ?_, rfl⟩ <;> cases t <;> rcases j with _ | _ | _ | j <;> rfl

end Vigil
